/-
Verification of the skyscraper firehose-collection pipeline.

This file gives a shallow embedding, in Lean 4, of the core of the
repository:

* `src/src/process/post_processors.py`  — post extraction and formatting
* `src/src/process/persistence.py`      — the Sink writing to the shared store
* `src/src/process/resolver.py`         — DID-to-handle resolution fallback
* `src/src/process/firehose_handlers.py`— per-message commit handling
* `src/src/process/workers.py`          — the worker loop
* `src/src/processor.py`                — the alternate (duplicated) pipeline
* `src/src/scraper.py`                  — the collector's monitor/retry loop
* `src/main.py`                         — the CLI entry point's binding to the
                                          collector class

External collaborators (the atproto stream parser, the CAR block decoder and
the identity resolver) are modelled as function parameters returning
`Except`, mirroring the fact that the Python code wraps their calls in
`try/except`.  Python `dict.get(k, default)` on optional sub-objects is
modelled by `Option` fields together with small accessor functions that
return the value the defaulted lookup would produce.
-/
import Mathlib

namespace Skyscraper

/-! ## Data model

A decoded post record, as the Python code reads it out of a CBOR dict.
`type` is `record.get('$type')` (absent key ⇒ `none`); `text` and
`createdAt` are the values behind `record.get('text', '')` and
`record.get('createdAt', '')` before the default is applied; `embed` and
`reply` model the optional sub-dicts. -/

/-- The `embed` sub-dict of a post record: its `$type` tag (`embed.get('$type')`)
and whether a `thumb` key is present (`'thumb' in embed`). -/
structure Embed where
  tag : Option String
  hasThumb : Bool
deriving Repr, DecidableEq

/-- The `reply.parent` sub-dict: carries an optional `uri`. -/
structure ReplyParent where
  uri : Option String
deriving Repr, DecidableEq

/-- The `reply` sub-dict of a post record: an optional `parent`. -/
structure ReplyRef where
  parent : Option ReplyParent
deriving Repr, DecidableEq

/-- A decoded block that is a Python dict (passes `isinstance(record, dict)`).
All fields are optional, matching `record.get(...)` lookups. -/
structure PostRecord where
  type : Option String
  text : Option String
  createdAt : Option String
  embed : Option Embed
  reply : Option ReplyRef
deriving Repr, DecidableEq

/-- One decoded CAR block, as produced by `CAR.from_bytes(commit.blocks)`:
either a dict (possibly a post record) or some non-dict value, which the
`isinstance(record, dict)` guard in the scanners rejects. -/
inductive Block where
  | dictRec (r : PostRecord)
  | nonDict
deriving Repr, DecidableEq

/-- An operation inside a commit (`op.action`, `op.path`). -/
structure Op where
  action : String
  path : String
deriving Repr, DecidableEq

/-- A decoded commit: repository DID (`commit.repo`), the raw block payload
(`commit.blocks`, kept opaque as a token that the block decoder interprets),
and the operations (`commit.ops`). -/
structure Commit where
  repo : String
  blocks : Nat
  ops : List Op
deriving Repr, DecidableEq

/-- The flat output record built by `_format_post_metadata` /
`extract_post_data`. -/
structure OutputRecord where
  text : String
  createdAt : String
  author : String
  uri : String
  hasImages : Bool
  replyTo : Option String
deriving Repr, DecidableEq

/-- Result of `resolver.did.resolve(repo)`: carries `also_known_as`. -/
structure ResolvedInfo where
  alsoKnownAs : List String
deriving Repr, DecidableEq

/-- The external identity resolver: raises (`.error`) or returns info. -/
def Resolver : Type := String → Except String ResolvedInfo

/-- The external CAR block decoder `CAR.from_bytes`: raises (`.error`) on a
malformed payload, otherwise yields the decoded blocks (`car.blocks.values()`). -/
def BlockDecoder : Type := Nat → Except String (List Block)

/-! ## `src/src/process/resolver.py` -/

/-- `_convert_did_to_handle(repo, resolver)`.  The whole body sits in a
`try/except` that falls back to `repo`.  Inside the `try`:
`resolved_info.also_known_as[0].split('at://')[1] if resolved_info.also_known_as else repo`.
The `[1]` index raises `IndexError` when the first handle does not contain
`at://`; that exception is caught by the same `except`, hence the `none ⇒ repo`
branch of the `get?`.  The function is total: no exception escapes. -/
def convertDidToHandle (repo : String) (resolve : Resolver) : String :=
  match resolve repo with
  | .error _ => repo
  | .ok resolvedInfo =>
    match resolvedInfo.alsoKnownAs with
    | [] => repo
    | aka :: _ =>
      match (aka.splitOn "at://").get? 1 with
      | some handle => handle
      | none => repo

/-! ## `src/src/process/post_processors.py` -/

/-- `embed.get('$type')` where `embed = record.get('embed', {})`: an absent
embed behaves as the empty dict, whose lookup yields `None`. -/
def embedTag : Option Embed → Option String
  | none => none
  | some e => e.tag

/-- `'thumb' in embed` where `embed = record.get('embed', {})`. -/
def embedHasThumb : Option Embed → Bool
  | none => false
  | some e => e.hasThumb

/-- `_detect_post_media(record)`:
`embed.get('$type') == 'app.bsky.embed.images' or (embed.get('$type') == 'app.bsky.embed.external' and 'thumb' in embed)`. -/
def detectPostMedia (record : PostRecord) : Bool :=
  embedTag record.embed == some "app.bsky.embed.images" ||
    (embedTag record.embed == some "app.bsky.embed.external" &&
      embedHasThumb record.embed)

/-- `reply_ref.get('parent', {})` where `reply_ref = record.get('reply', {})`. -/
def replyParent : Option ReplyRef → Option ReplyParent
  | none => none
  | some replyRef => replyRef.parent

/-- `_extract_parent_post_uri(record)`:
`record.get('reply', {}).get('parent', {}).get('uri')`. -/
def extractParentPostUri (record : PostRecord) : Option String :=
  match replyParent record.reply with
  | none => none
  | some parent => parent.uri

/-- `_format_post_metadata(record, repo, path, author_handle)`. -/
def formatPostMetadata (record : PostRecord) (repo path authorHandle : String) :
    OutputRecord :=
  { text := record.text.getD ""
    createdAt := record.createdAt.getD ""
    author := authorHandle
    uri := "at://" ++ repo ++ "/" ++ path
    hasImages := detectPostMedia record
    replyTo := extractParentPostUri record }

/-- The guard of the block scan in `_extract_bluesky_post`:
`isinstance(record, dict) and record.get('$type') == 'app.bsky.feed.post'`. -/
def isPostBlock : Block → Bool
  | .dictRec r => r.type == some "app.bsky.feed.post"
  | .nonDict => false

/-- `_extract_bluesky_post(commit, op, resolver, ...)`, as the list of output
records it produces for the operation (each is then stored by
`_process_post_json` in order).  The body is wrapped in `try/except`: a
decode failure of the block payload yields nothing. -/
def extractBlueskyPost (resolve : Resolver) (decode : BlockDecoder)
    (commit : Commit) (op : Op) : List OutputRecord :=
  let authorHandle := convertDidToHandle commit.repo resolve
  match decode commit.blocks with
  | .error _ => []
  | .ok blocks =>
    blocks.filterMap fun b =>
      match b with
      | .dictRec record =>
        if record.type == some "app.bsky.feed.post" then
          some (formatPostMetadata record commit.repo op.path authorHandle)
        else
          none
      | .nonDict => none

/-! ## `src/src/process/persistence.py` -/

/-- The shared state owned by the collector: `posts_dict` (URI-indexed,
modelled as an association list with unique keys, insertion order kept),
`posts_list` (arrival order), and the shared `post_count`. -/
structure SharedState where
  postsDict : List (String × OutputRecord)
  postsList : List OutputRecord
  postCount : Nat
deriving Repr, DecidableEq

/-- The empty shared state the collector starts from. -/
def SharedState.empty : SharedState :=
  { postsDict := [], postsList := [], postCount := 0 }

/-- Python `posts_dict[uri] = post_data`: replace the binding if the key is
present, otherwise append a new one. -/
def dictInsert (d : List (String × OutputRecord)) (k : String)
    (v : OutputRecord) : List (String × OutputRecord) :=
  if d.any (fun p => p.1 == k) then
    d.map fun p => if p.1 == k then (k, v) else p
  else
    d ++ [(k, v)]

/-- `_process_post_json(post_data, posts_dict, posts_list, ..., post_count, lock)`:
under the lock, upsert into the dict and append to the list; then increment
the counter. -/
def processPostJson (postData : OutputRecord) (s : SharedState) : SharedState :=
  { postsDict := dictInsert s.postsDict postData.uri postData
    postsList := s.postsList ++ [postData]
    postCount := s.postCount + 1 }

/-! ## `src/src/process/firehose_handlers.py` -/

/-- Result of `parse_subscribe_repos_message(message)`: a commit, or a parsed
value without an `ops` attribute (the `hasattr(commit, 'ops')` guard). -/
inductive Parsed where
  | commit (c : Commit)
  | noOps
deriving Repr, DecidableEq

/-- The external stream-message parser; raises (`.error`) on a bad message. -/
def MessageParser : Type := Nat → Except String Parsed

/-- Python `s.startswith(p)`: character-wise prefix test. -/
def strStartsWith (s p : String) : Bool :=
  p.data.isPrefixOf s.data

/-- The operation filter of `handle_firehose_message`:
`op.action == 'create' and op.path.startswith('app.bsky.feed.post/')`. -/
def isCreatePostOp (op : Op) : Bool :=
  op.action == "create" && strStartsWith op.path "app.bsky.feed.post/"

/-- All output records one commit produces: for each qualifying operation,
the records `_extract_bluesky_post` yields, in operation order. -/
def commitRecords (resolve : Resolver) (decode : BlockDecoder) (c : Commit) :
    List OutputRecord :=
  (c.ops.filter isCreatePostOp).flatMap (extractBlueskyPost resolve decode c)

/-- `handle_firehose_message(message, resolver, posts_dict, posts_list, ...)`
as a transformer of the shared state: parse the message (exceptions and
missing `ops` leave the state untouched), then store every produced record
in order via `_process_post_json`. -/
def handleFirehoseMessage (parse : MessageParser) (resolve : Resolver)
    (decode : BlockDecoder) (message : Nat) (s : SharedState) : SharedState :=
  match parse message with
  | .error _ => s
  | .ok .noOps => s
  | .ok (.commit c) =>
    (commitRecords resolve decode c).foldl (fun st r => processPostJson r st) s

/-! ## `src/src/process/workers.py`

The worker loop `while not stop_event.is_set(): try: message = queue.get(timeout=1);
handle_firehose_message(...)` with `except Empty: continue` and
`except Exception as e: print(...)`.  One loop iteration is driven by an
observation of the stop event followed by the outcome of the queue fetch;
the message handler is a parameter returning `Except`, standing for any
exception raised while handling one message. -/

/-- What `queue.get(timeout=1)` did on one iteration: raised
`multiprocessing.queues.Empty`, or returned a raw message token. -/
inductive QueueFetch where
  | timeout
  | msg (m : Nat)
deriving Repr, DecidableEq

/-- One iteration of the worker loop as seen from its environment: the value
`stop_event.is_set()` read at the loop head, then the queue fetch outcome. -/
structure WorkerTick where
  stopSet : Bool
  fetch : QueueFetch
deriving Repr, DecidableEq

/-- How a finite run of the worker loop ended: the loop condition saw the
stop event set and the worker returned, or the observation trace ran out
with the worker still looping (an artifact of the finite trace). -/
inductive WorkerExit where
  | stopped
  | outOfTrace
deriving Repr, DecidableEq

/-- `worker_process(queue, ..., stop_event)` over a finite observation trace.
`handle` is the body `handle_firehose_message(message, resolver, ...)`; an
`.error` from it is the `except Exception` branch: the error is printed and
the loop continues with the state unchanged. -/
def workerRun (handle : SharedState → Nat → Except String SharedState) :
    List WorkerTick → SharedState → SharedState × WorkerExit
  | [], s => (s, .outOfTrace)
  | t :: ts, s =>
    if t.stopSet then
      (s, .stopped)
    else
      match t.fetch with
      | .timeout => workerRun handle ts s
      | .msg m =>
        match handle s m with
        | .ok s' => workerRun handle ts s'
        | .error _ => workerRun handle ts s

/-! ## `src/src/scraper.py` — the collector's monitor/retry loop

`SkyScraper.start_collection` spawns the workers, then runs
`while True:` (retry loop): spawn the client process, then an inner
`while True:` monitoring loop that each second checks, in order:
the stop event, the time limit, the post limit, and the client's liveness.
`_stop_collection` sets the stop event and terminates the client and the
workers.  After the inner loop breaks, `if self.stop_event.is_set(): break`
decides whether the retry loop continues; the `except Exception` around the
monitor loop prints a connection error and falls through to the end of the
retry-loop body, which is the only path that reaches a respawn. -/

/-- The collector state the monitor loop reads and writes: whether the stop
event is set, and how many client (stream producer) processes have been
spawned so far. -/
structure CollectorState where
  stopSet : Bool
  spawned : Nat
deriving Repr, DecidableEq

/-- `_stop_collection`: sets the stop event (idempotently) and terminates the
client process and the workers. -/
def stopCollection (s : CollectorState) : CollectorState :=
  { s with stopSet := true }

/-- The environment of one pass of the inner monitoring loop:
whether `duration_seconds and time.time() > end_time`, whether
`post_limit and self.post_count.value >= post_limit`, whether
`self.client_proc.is_alive()`, and whether an exception was raised during
this pass (the `except Exception` case of the `try`). -/
structure MonitorTick where
  timeHit : Bool
  postHit : Bool
  clientAlive : Bool
  exc : Bool
deriving Repr, DecidableEq

/-- How one pass through the inner monitoring loop ended. -/
inductive MonitorOutcome where
  /-- one of the `break` statements of the inner loop ran -/
  | exitLoop
  /-- fell through to `time.sleep(1)` and loops again -/
  | keepLooping
  /-- an exception escaped to the `except Exception` handler -/
  | excCaught
deriving Repr, DecidableEq

/-- One pass of the inner monitoring loop of `start_collection`, checking the
conditions in source order. -/
def monitorCheck (t : MonitorTick) (s : CollectorState) :
    CollectorState × MonitorOutcome :=
  if t.exc then
    (s, .excCaught)
  else if s.stopSet then
    (s, .exitLoop)
  else if t.timeHit then
    (stopCollection s, .exitLoop)
  else if t.postHit then
    (stopCollection s, .exitLoop)
  else if !t.clientAlive then
    if !s.stopSet then
      (stopCollection s, .exitLoop)
    else
      (s, .exitLoop)
  else
    (s, .keepLooping)

/-- How a finite run of the inner monitoring loop ended: one of its `break`
statements ran, an exception reached the surrounding `except Exception`
handler, or the finite tick trace was exhausted with the loop still
monitoring (an artifact of the finite trace). -/
inductive RunOutcome where
  | broke
  | excCaught
  | ranOut
deriving Repr, DecidableEq

/-- Run the inner monitoring loop over a tick trace; returns the state, the
unconsumed ticks, and how the loop ended. -/
def monitorRun : List MonitorTick → CollectorState →
    CollectorState × List MonitorTick × RunOutcome
  | [], s => (s, [], .ranOut)
  | t :: ts, s =>
    match monitorCheck t s with
    | (s', .exitLoop) => (s', ts, .broke)
    | (s', .excCaught) => (s', ts, .excCaught)
    | (s', .keepLooping) => monitorRun ts s'

/-- The retry loop of `start_collection` (fuel-bounded): spawn a client
process, run the monitoring loop; after a `break` of the inner loop the
source checks `if self.stop_event.is_set(): break`, ending the retry loop;
after a caught exception it falls through and the retry loop spawns a new
client.  An exhausted tick trace returns the state as it stands. -/
def collectRun : Nat → List MonitorTick → CollectorState → CollectorState
  | 0, _, s => s
  | fuel + 1, ticks, s =>
    let s1 : CollectorState := { s with spawned := s.spawned + 1 }
    match monitorRun ticks s1 with
    | (s2, rest, .broke) => if s2.stopSet then s2 else collectRun fuel rest s2
    | (s2, rest, .excCaught) => collectRun fuel rest s2
    | (s2, _, .ranOut) => s2

/-! ## `src/main.py` — the CLI entry point's binding to the collector

`main` parses `--time`, `--number` (mutually exclusive), `--output`,
`--verbose`, `--workers`, then runs
`scraper = FirehoseScraper(output_file=args.output, verbose=args.verbose, num_workers=args.workers)`
after `from src.scraper import FirehoseScraper`.  We model the name-binding
layer: which class names `src/src/scraper.py` defines, which name `main`
imports from it, which keyword arguments the call passes, and which
parameters `SkyScraper.__init__` accepts. -/

/-- The class names defined by the module `src/src/scraper.py`. -/
def scraperModuleClasses : List String := ["SkyScraper"]

/-- The name `src/main.py` imports from `src.scraper`. -/
def mainImportedClass : String := "FirehoseScraper"

/-- The keyword arguments of the constructor call in `main`. -/
def mainConstructorKeywords : List String :=
  ["output_file", "verbose", "num_workers"]

/-- The parameters (besides `self`) accepted by `SkyScraper.__init__`. -/
def skyScraperInitParams : List String := ["verbose", "num_workers"]

/-- The CLI invocation succeeds in constructing the collector only if the
imported name is defined by the module and every keyword argument it passes
is an accepted parameter. -/
def cliConstructsCollector : Bool :=
  scraperModuleClasses.contains mainImportedClass &&
    mainConstructorKeywords.all (fun kw => skyScraperInitParams.contains kw)

/-! ## `src/src/processor.py` — the alternate (duplicated) pipeline -/

/-- `resolve_author_handle(repo, resolver)` from `src/src/processor.py`:
same `try/except` body as `_convert_did_to_handle`. -/
def resolveAuthorHandle (repo : String) (resolve : Resolver) : String :=
  match resolve repo with
  | .error _ => repo
  | .ok resolvedInfo =>
    match resolvedInfo.alsoKnownAs with
    | [] => repo
    | aka :: _ =>
      match (aka.splitOn "at://").get? 1 with
      | some handle => handle
      | none => repo

/-- `check_for_images(record)` from `src/src/processor.py`. -/
def checkForImages (record : PostRecord) : Bool :=
  embedTag record.embed == some "app.bsky.embed.images" ||
    (embedTag record.embed == some "app.bsky.embed.external" &&
      embedHasThumb record.embed)

/-- `get_reply_to(record)` from `src/src/processor.py`. -/
def getReplyTo (record : PostRecord) : Option String :=
  match replyParent record.reply with
  | none => none
  | some parent => parent.uri

/-- `extract_post_data(record, repo, path, author_handle)` from
`src/src/processor.py`. -/
def extractPostData (record : PostRecord) (repo path authorHandle : String) :
    OutputRecord :=
  { text := record.text.getD ""
    createdAt := record.createdAt.getD ""
    author := authorHandle
    uri := "at://" ++ repo ++ "/" ++ path
    hasImages := checkForImages record
    replyTo := getReplyTo record }

/-! ## Theorems -/

/-- C7: for every post record, the OutputRecord's `has_images` field is true
iff the record's embed has type tag `app.bsky.embed.images`, or has type tag
`app.bsky.embed.external` with a `thumb` field present; for any other embed
or no embed at all, `has_images` is false. -/
theorem hasImages_iff_media (record : PostRecord) (repo path authorHandle : String) :
    (formatPostMetadata record repo path authorHandle).hasImages = true ↔
      ∃ e, record.embed = some e ∧
        (e.tag = some "app.bsky.embed.images" ∨
          (e.tag = some "app.bsky.embed.external" ∧ e.hasThumb = true)) := by
  show detectPostMedia record = true ↔ _
  unfold detectPostMedia
  cases h : record.embed with
  | none => simp [embedTag, embedHasThumb, h]
  | some e =>
    simp [embedTag, embedHasThumb, h]

/-- C9: the alternate pipeline's extraction functions (from
`src/src/processor.py`) return exactly the same output-record field values as
the consolidated pipeline's functions (from `src/src/process/resolver.py` and
`src/src/process/post_processors.py`), for every record, repository
identifier, operation path and resolver behaviour. -/
theorem alternate_pipeline_agrees (resolve : Resolver) (record : PostRecord)
    (repo path authorHandle : String) :
    resolveAuthorHandle repo resolve = convertDidToHandle repo resolve ∧
    extractPostData record repo path authorHandle =
      formatPostMetadata record repo path authorHandle ∧
    checkForImages record = detectPostMedia record ∧
    getReplyTo record = extractParentPostUri record :=
  ⟨rfl, rfl, rfl, rfl⟩

/-- C4: storing the same OutputRecord twice leaves the URI-indexed map with
exactly one entry for that record's uri, while the ordered list holds two
entries for it; map cardinality (1) and list length (2) diverge. -/
theorem store_twice_map_vs_list (r : OutputRecord) :
    ((processPostJson r (processPostJson r SharedState.empty)).postsDict.filter
        fun p => p.1 == r.uri).length = 1 ∧
    (processPostJson r (processPostJson r SharedState.empty)).postsDict.length = 1 ∧
    ((processPostJson r (processPostJson r SharedState.empty)).postsList.filter
        fun x => x == r).length = 2 ∧
    (processPostJson r (processPostJson r SharedState.empty)).postsList.length = 2 ∧
    (processPostJson r (processPostJson r SharedState.empty)).postsDict.length ≠
      (processPostJson r (processPostJson r SharedState.empty)).postsList.length := by
  simp [processPostJson, SharedState.empty, dictInsert]

/-- All sink writes for a list of output records, in order, starting from the
empty shared state (`start_collection` initialises the store empty and the
counter to zero). -/
def storeAll (rs : List OutputRecord) : SharedState :=
  rs.foldl (fun st r => processPostJson r st) SharedState.empty

/-- One `dictInsert` grows the association list by at most one binding. -/
theorem dictInsert_length_le (d : List (String × OutputRecord)) (k : String)
    (v : OutputRecord) : (dictInsert d k v).length ≤ d.length + 1 := by
  unfold dictInsert
  split
  · simp
  · simp

/-- The C10 invariant holds of a state and is preserved by every
`processPostJson` write. -/
theorem storeAll_go_invariant (rs : List OutputRecord) :
    ∀ s : SharedState, s.postCount = s.postsList.length →
      s.postsDict.length ≤ s.postsList.length →
      (rs.foldl (fun st r => processPostJson r st) s).postCount =
          (rs.foldl (fun st r => processPostJson r st) s).postsList.length ∧
        (rs.foldl (fun st r => processPostJson r st) s).postsDict.length ≤
          (rs.foldl (fun st r => processPostJson r st) s).postsList.length := by
  induction rs with
  | nil => intro s h1 h2; exact ⟨h1, h2⟩
  | cons r rs ih =>
    intro s h1 h2
    refine ih (processPostJson r s) ?_ ?_
    · simp [processPostJson, h1]
    · simp only [processPostJson]
      calc (dictInsert s.postsDict r.uri r).length
          ≤ s.postsDict.length + 1 := dictInsert_length_le _ _ _
        _ ≤ s.postsList.length + 1 := by omega
        _ = (s.postsList ++ [r]).length := by simp

/-- C10: starting from the empty shared store and a zero progress counter,
after every sequence of sink store operations the progress counter equals the
length of the ordered list, and the URI-indexed map's cardinality is at most
the ordered list's length. -/
theorem counter_eq_log_length (rs : List OutputRecord) :
    (storeAll rs).postCount = (storeAll rs).postsList.length ∧
    (storeAll rs).postsDict.length ≤ (storeAll rs).postsList.length :=
  storeAll_go_invariant rs SharedState.empty rfl (by simp [SharedState.empty])

/-- C5: for every repository identifier, when the identity resolver raises or
returns no known handles, the handle falls back to the raw repository
identifier and the produced OutputRecord's author field equals it; the
resolution call is total (the `try/except` in `_convert_did_to_handle`
catches every exception), so no exception escapes to the caller. -/
theorem resolution_failure_fallback (resolve : Resolver) (record : PostRecord)
    (repo path : String)
    (h : (∃ e, resolve repo = .error e) ∨
      ∃ info, resolve repo = .ok info ∧ info.alsoKnownAs = []) :
    convertDidToHandle repo resolve = repo ∧
    (formatPostMetadata record repo path (convertDidToHandle repo resolve)).author
      = repo := by
  have hc : convertDidToHandle repo resolve = repo := by
    unfold convertDidToHandle
    rcases h with ⟨e, he⟩ | ⟨info, hi, hak⟩
    · rw [he]
    · rw [hi]
      simp [hak]
  exact ⟨hc, by rw [formatPostMetadata, hc]⟩

/-- A resolver that always raises. -/
def resolveAlwaysFails : Resolver := fun _ => .error "resolution failed"

/-- A concrete decoded post record used in witnesses. -/
def samplePost : PostRecord :=
  { type := some "app.bsky.feed.post"
    text := some "hello world"
    createdAt := some "2024-01-01T00:00:00Z"
    embed := none
    reply := none }

/-- Witness for C5 at a concrete repository identifier and resolver. -/
theorem resolution_failure_fallback_witness :
    resolveAlwaysFails "did:plc:abc123" = .error "resolution failed" ∧
    (convertDidToHandle "did:plc:abc123" resolveAlwaysFails = "did:plc:abc123" ∧
      (formatPostMetadata samplePost "did:plc:abc123" "app.bsky.feed.post/3kabc"
          (convertDidToHandle "did:plc:abc123" resolveAlwaysFails)).author
        = "did:plc:abc123") :=
  ⟨rfl,
    resolution_failure_fallback resolveAlwaysFails samplePost "did:plc:abc123"
      "app.bsky.feed.post/3kabc" (Or.inl ⟨"resolution failed", rfl⟩)⟩

/-- The block scan of `_extract_bluesky_post` keeps exactly the blocks passing
the `isinstance(record, dict) and record.get('$type') == 'app.bsky.feed.post'`
guard, in order. -/
theorem extract_scan_eq_filter (repo path author : String) : ∀ bs : List Block,
    (bs.filterMap fun b =>
      match b with
      | Block.dictRec record =>
        if record.type == some "app.bsky.feed.post" then
          some (formatPostMetadata record repo path author)
        else
          none
      | Block.nonDict => none) =
    ((bs.filter isPostBlock).filterMap fun b =>
      match b with
      | Block.dictRec record => some (formatPostMetadata record repo path author)
      | Block.nonDict => none) := by
  intro bs
  induction bs with
  | nil => rfl
  | cons b bs ih =>
    cases b with
    | dictRec record =>
      cases hh : (record.type == some "app.bsky.feed.post") with
      | true =>
        simp only [List.filterMap_cons, List.filter_cons, isPostBlock, hh,
          if_true]
        rw [ih]
      | false =>
        simp only [List.filterMap_cons, List.filter_cons, isPostBlock, hh,
          Bool.false_eq_true, if_false]
        exact ih
    | nonDict =>
      simp only [List.filterMap_cons, List.filter_cons, isPostBlock,
        Bool.false_eq_true, if_false]
      exact ih

/-- C2: for every valid commit carrying a create-operation on the post
collection whose block payload decodes to a block set containing the (one)
post-typed record, `_extract_bluesky_post` produces exactly one OutputRecord
for that operation, and its `uri` equals `at://{repo}/{path}`. -/
theorem create_post_yields_single_record (resolve : Resolver)
    (decode : BlockDecoder) (commit : Commit) (op : Op) (blocks : List Block)
    (r : PostRecord)
    (hact : op.action = "create")
    (hpath : strStartsWith op.path "app.bsky.feed.post/" = true)
    (hdec : decode commit.blocks = .ok blocks)
    (hone : blocks.filter isPostBlock = [Block.dictRec r]) :
    extractBlueskyPost resolve decode commit op =
      [formatPostMetadata r commit.repo op.path
        (convertDidToHandle commit.repo resolve)] ∧
    (formatPostMetadata r commit.repo op.path
        (convertDidToHandle commit.repo resolve)).uri =
      "at://" ++ commit.repo ++ "/" ++ op.path := by
  refine ⟨?_, rfl⟩
  have hstep : extractBlueskyPost resolve decode commit op =
      blocks.filterMap fun b =>
        match b with
        | Block.dictRec record =>
          if record.type == some "app.bsky.feed.post" then
            some (formatPostMetadata record commit.repo op.path
              (convertDidToHandle commit.repo resolve))
          else
            none
        | Block.nonDict => none := by
    unfold extractBlueskyPost
    rw [hdec]
  rw [hstep, extract_scan_eq_filter, hone]
  rfl

/-- A concrete non-post dict block (a like record) used in witnesses. -/
def sampleLike : PostRecord :=
  { type := some "app.bsky.feed.like"
    text := none
    createdAt := none
    embed := none
    reply := none }

/-- A concrete decoded block set with one non-dict block, one non-post dict
block and one post block. -/
def sampleBlocks : List Block :=
  [Block.nonDict, Block.dictRec sampleLike, Block.dictRec samplePost]

/-- A block decoder that yields `sampleBlocks` for any payload token. -/
def decodeSampleBlocks : BlockDecoder := fun _ => .ok sampleBlocks

/-- A concrete commit used in witnesses. -/
def sampleCommit : Commit :=
  { repo := "did:plc:abc123", blocks := 0,
    ops := [{ action := "create", path := "app.bsky.feed.post/3kabc" }] }

/-- The create-operation of `sampleCommit`. -/
def sampleOp : Op := { action := "create", path := "app.bsky.feed.post/3kabc" }

/-- Witness for C2 at a concrete commit, operation, decoder and resolver. -/
theorem create_post_yields_single_record_witness :
    sampleOp.action = "create" ∧
    strStartsWith sampleOp.path "app.bsky.feed.post/" = true ∧
    decodeSampleBlocks sampleCommit.blocks = .ok sampleBlocks ∧
    sampleBlocks.filter isPostBlock = [Block.dictRec samplePost] ∧
    (extractBlueskyPost resolveAlwaysFails decodeSampleBlocks sampleCommit
        sampleOp =
      [formatPostMetadata samplePost sampleCommit.repo sampleOp.path
        (convertDidToHandle sampleCommit.repo resolveAlwaysFails)] ∧
    (formatPostMetadata samplePost sampleCommit.repo sampleOp.path
        (convertDidToHandle sampleCommit.repo resolveAlwaysFails)).uri =
      "at://" ++ sampleCommit.repo ++ "/" ++ sampleOp.path) :=
  ⟨rfl, by decide, rfl, by decide,
    create_post_yields_single_record resolveAlwaysFails decodeSampleBlocks
      sampleCommit sampleOp sampleBlocks samplePost rfl (by decide) rfl
      (by decide)⟩

/-- C8: a commit all of whose operations are non-create or outside the post
collection produces no OutputRecord and leaves the shared store unchanged. -/
theorem non_post_commit_leaves_store (parse : MessageParser) (resolve : Resolver)
    (decode : BlockDecoder) (message : Nat) (c : Commit) (s : SharedState)
    (hp : parse message = .ok (.commit c))
    (hops : ∀ op ∈ c.ops,
      op.action ≠ "create" ∨ strStartsWith op.path "app.bsky.feed.post/" = false) :
    commitRecords resolve decode c = [] ∧
    handleFirehoseMessage parse resolve decode message s = s := by
  have hfilter : c.ops.filter isCreatePostOp = [] := by
    rw [List.filter_eq_nil_iff]
    intro op hop
    unfold isCreatePostOp
    rcases hops op hop with h | h
    · simp [h]
    · simp [h]
  have hrec : commitRecords resolve decode c = [] := by
    unfold commitRecords
    rw [hfilter]
    rfl
  refine ⟨hrec, ?_⟩
  unfold handleFirehoseMessage
  rw [hp]
  show List.foldl (fun st r => processPostJson r st) s
    (commitRecords resolve decode c) = s
  rw [hrec]
  rfl

/-- A concrete commit whose operations are a delete on the post collection
and a create outside it. -/
def nonPostCommit : Commit :=
  { repo := "did:plc:abc123", blocks := 0,
    ops := [{ action := "delete", path := "app.bsky.feed.post/3kabc" },
      { action := "create", path := "app.bsky.feed.like/3kdef" }] }

/-- A parser returning `nonPostCommit` for any message token. -/
def parseNonPostCommit : MessageParser := fun _ => .ok (.commit nonPostCommit)

/-- A concrete non-empty shared state used in witnesses. -/
def sampleState : SharedState :=
  processPostJson
    (formatPostMetadata samplePost "did:plc:abc123" "app.bsky.feed.post/3kabc"
      "did:plc:abc123")
    SharedState.empty

/-- Witness for C8 at a concrete message, commit and store. -/
theorem non_post_commit_leaves_store_witness :
    parseNonPostCommit 0 = .ok (.commit nonPostCommit) ∧
    (commitRecords resolveAlwaysFails decodeSampleBlocks nonPostCommit = [] ∧
    handleFirehoseMessage parseNonPostCommit resolveAlwaysFails
      decodeSampleBlocks 0 sampleState = sampleState) :=
  ⟨rfl,
    non_post_commit_leaves_store parseNonPostCommit resolveAlwaysFails
      decodeSampleBlocks 0 nonPostCommit sampleState rfl (by decide)⟩

/-- The worker loop never returns `stopped` unless some loop-head observation
of the stop event was `true`. -/
theorem workerRun_stopped_needs_stop
    (handle : SharedState → Nat → Except String SharedState) :
    ∀ (trace : List WorkerTick) (s : SharedState),
      (∀ t ∈ trace, t.stopSet = false) →
      (workerRun handle trace s).2 ≠ WorkerExit.stopped := by
  intro trace
  induction trace with
  | nil => intro s _ h; exact absurd h (by simp [workerRun])
  | cons t ts ih =>
    intro s hall
    have ht : t.stopSet = false := hall t (List.mem_cons_self t ts)
    have hts : ∀ u ∈ ts, u.stopSet = false := fun u hu =>
      hall u (List.mem_cons_of_mem t hu)
    cases hf : t.fetch with
    | timeout => simpa [workerRun, ht, hf] using ih s hts
    | msg m =>
      cases h2 : handle s m with
      | ok s2 => simpa [workerRun, ht, hf, h2] using ih s2 hts
      | error e => simpa [workerRun, ht, hf, h2] using ih s hts

/-- C6: an exception raised while handling one message is caught inside the
worker's loop body and the loop continues with the next iteration; the
`worker_process` loop returns only when the stop signal is observed set, so
a malformed message never terminates a worker. -/
theorem worker_survives_bad_message
    (handle : SharedState → Nat → Except String SharedState)
    (m : Nat) (e : String) (ts trace : List WorkerTick) (s s₀ : SharedState)
    (hfail : handle s m = .error e)
    (hstops : ∀ t ∈ trace, t.stopSet = false) :
    workerRun handle ({ stopSet := false, fetch := .msg m } :: ts) s =
      workerRun handle ts s ∧
    (workerRun handle trace s₀).2 ≠ WorkerExit.stopped := by
  refine ⟨?_, workerRun_stopped_needs_stop handle trace s₀ hstops⟩
  simp [workerRun, hfail]

/-- A message handler that raises on every message. -/
def handleAlwaysFails : SharedState → Nat → Except String SharedState :=
  fun _ _ => .error "malformed message"

/-- Witness for C6 at a concrete failing handler and trace. -/
theorem worker_survives_bad_message_witness :
    handleAlwaysFails SharedState.empty 7 = .error "malformed message" ∧
    (workerRun handleAlwaysFails
        ({ stopSet := false, fetch := .msg 7 } :: []) SharedState.empty =
      workerRun handleAlwaysFails [] SharedState.empty ∧
    (workerRun handleAlwaysFails
        [({ stopSet := false, fetch := .timeout } : WorkerTick),
          { stopSet := false, fetch := .msg 7 }] SharedState.empty).2 ≠
      WorkerExit.stopped) :=
  ⟨rfl,
    worker_survives_bad_message handleAlwaysFails 7 "malformed message" []
      [{ stopSet := false, fetch := .timeout }, { stopSet := false, fetch := .msg 7 }]
      SharedState.empty SharedState.empty rfl (by decide)⟩

/-- C1 (against the code): when the monitoring loop finds the client process
not alive while the stop signal is still false — with no limit hit and no
exception raised on that pass — `start_collection` prints the disconnect,
calls `_stop_collection` (setting the stop event), breaks out of the inner
loop, and then the `if self.stop_event.is_set(): break` ends the retry loop:
the run terminates with only the one already-spawned producer, and no new
stream producer is ever spawned, contradicting the reconnect the spec
describes (and the source's own comment `will retry if client disconnects`). -/
theorem client_death_ends_run_without_respawn (t : MonitorTick)
    (ts : List MonitorTick) (s : CollectorState) (fuel : Nat)
    (hexc : t.exc = false) (htime : t.timeHit = false)
    (hpost : t.postHit = false) (halive : t.clientAlive = false)
    (hstop : s.stopSet = false) :
    collectRun (fuel + 1) (t :: ts) s =
      { stopSet := true, spawned := s.spawned + 1 } := by
  unfold collectRun monitorRun monitorCheck stopCollection
  simp [hexc, htime, hpost, halive, hstop]

/-- A monitor tick on which the client process is found dead: no limit hit,
client not alive, no exception. -/
def deadClientTick : MonitorTick :=
  { timeHit := false, postHit := false, clientAlive := false, exc := false }

/-- Witness for C1's code behaviour at the failing input: one producer is
spawned, the dead client is observed, and the whole run ends with the stop
event set and `spawned = 1` — no reconnect. -/
theorem client_death_ends_run_without_respawn_witness :
    deadClientTick.exc = false ∧ deadClientTick.timeHit = false ∧
    deadClientTick.postHit = false ∧ deadClientTick.clientAlive = false ∧
    ({ stopSet := false, spawned := 0 } : CollectorState).stopSet = false ∧
    collectRun 4 [deadClientTick] { stopSet := false, spawned := 0 } =
      { stopSet := true, spawned := 1 } :=
  ⟨rfl, rfl, rfl, rfl, rfl,
    client_death_ends_run_without_respawn deadClientTick [] _ 3 rfl rfl rfl rfl
      rfl⟩

/-- C3 (against the code): the CLI entry point cannot construct the
collector: `main` imports `FirehoseScraper` from `src.scraper`, which defines
only `SkyScraper`, and the constructor call passes `output_file=`, which
`SkyScraper.__init__` does not accept.  The invocation therefore fails
(ImportError, and a TypeError even if the name resolved) instead of starting
a collection run. -/
theorem cli_cannot_construct_collector :
    cliConstructsCollector = false ∧
    scraperModuleClasses.contains mainImportedClass = false ∧
    mainConstructorKeywords.all
      (fun kw => skyScraperInitParams.contains kw) = false := by
  refine ⟨?_, ?_, ?_⟩ <;> decide

end Skyscraper
